import Mathlib

/-!
Verification of the core of the ClaudeMany reverse proxy
(`app/routers/proxy.py`, `app/claude_client.py`, `app/pricing.py`, `app/crud.py`).

Conventions of the shallow embedding:
* Python `float` arithmetic on prices, costs and timestamps is modelled exactly
  over `ℚ`; Python ints are `ℤ`; `float('inf')` thresholds are `Option ℤ` with
  `none` standing for `+∞`.
* JSON values are the inductive `Json` below.  Byte-level concerns (UTF-8
  decoding, SSE line framing `data: ...`) are abstracted: an SSE body is the
  list of the JSON payloads of its `data:` lines, a JSON body is its parsed
  value.  `dict.get(k, d)` on a non-dict raises in Python; the embedding reads
  the default instead, and theorems about the meter carry a well-formedness
  hypothesis that confines them to inputs where the two semantics agree.
* A Python `KeyError` (missing dict key on subscript) is modelled by `Option`:
  `none` is the raised exception.
-/

/-- JSON values, as produced by `json.loads`. Object fields keep insertion
order, as Python dicts do. -/
inductive Json where
  | null : Json
  | bool : Bool → Json
  | num : Int → Json
  | str : String → Json
  | arr : List Json → Json
  | obj : List (String × Json) → Json

/-- Lookup of a key in the field list of a JSON object. -/
def jlookup (k : String) : List (String × Json) → Option Json
  | [] => none
  | f :: fs => if f.1 == k then some f.2 else jlookup k fs

/-- Python `data.get(k)` for `data` a dict; `none` when `data` is not a dict or
the key is absent. -/
def jget (j : Json) (k : String) : Option Json :=
  match j with
  | .obj fs => jlookup k fs
  | _ => none

/-- Python `data.get(k, d)`. -/
def jgetD (j : Json) (k : String) (d : Json) : Json :=
  (jget j k).getD d

/-- Python `k in data` for `data` a dict. -/
def jhasKey (j : Json) (k : String) : Bool :=
  (jget j k).isSome

/-- Python truthiness of a JSON value (`if usage:`). -/
def jtruthy : Json → Bool
  | .null => false
  | .bool b => b
  | .num n => n != 0
  | .str s => s != ""
  | .arr l => !l.isEmpty
  | .obj fs => !fs.isEmpty

/-- The integer carried by a JSON value; `d` when it is not a number
(well-formedness hypotheses keep the meter away from that case). -/
def asIntD (j : Json) (d : Int) : Int :=
  match j with
  | .num n => n
  | _ => d

/-- Whether a JSON value is the string `s`. -/
def isStr (j : Json) (s : String) : Bool :=
  match j with
  | .str t => t == s
  | _ => false

/-- Whether a JSON value is an object. -/
def isObj : Json → Bool
  | .obj _ => true
  | _ => false

/-- Whether `pat` occurs at the head of `s`. -/
def charsLead : List Char → List Char → Bool
  | [], _ => true
  | _ :: _, [] => false
  | a :: as, b :: bs => a == b && charsLead as bs

/-- Whether `pat` occurs somewhere inside `s`. -/
def charsWithin (pat : List Char) : List Char → Bool
  | [] => charsLead pat []
  | c :: cs => charsLead pat (c :: cs) || charsWithin pat cs

/-- Python `pat in s` on strings (substring test). -/
def strContains (s pat : String) : Bool :=
  charsWithin pat.toList s.toList

/-- Python `str.lower` on the ASCII model names this program handles. -/
def strLower (s : String) : String :=
  ⟨s.toList.map Char.toLower⟩

/-! ### A miniature JSON reader

Used only to state that the synthetic 502 body emitted by the pipeline is, as a
JSON value, the object the specification promises.  Handles objects, strings
without escapes, integers, and whitespace - enough for that constant. -/

/-- Skip JSON whitespace. -/
def skipWs : List Char → List Char
  | ' ' :: cs => skipWs cs
  | '\n' :: cs => skipWs cs
  | '\t' :: cs => skipWs cs
  | '\r' :: cs => skipWs cs
  | cs => cs

/-- Read a string body up to the closing quote. -/
def readStr : List Char → Option (String × List Char)
  | [] => none
  | '"' :: cs => some ("", cs)
  | c :: cs =>
    match readStr cs with
    | some (s, rest) => some (⟨c :: s.toList⟩, rest)
    | none => none

/-- Read the digits of a nonnegative integer. -/
def readDigits (acc : Int) : List Char → Int × List Char
  | c :: cs =>
    if c.isDigit then readDigits (acc * 10 + (c.toNat - 48 : Int)) cs
    else (acc, c :: cs)
  | [] => (acc, [])

mutual

/-- Read one JSON value (the first argument is fuel, spent on every call). -/
def readJson : Nat → List Char → Option (Json × List Char)
  | 0, _ => none
  | fuel + 1, cs0 =>
    match skipWs cs0 with
    | '"' :: cs =>
      match readStr cs with
      | some (s, rest) => some (.str s, rest)
      | none => none
    | '\x7b' :: cs => readJsonFields fuel (skipWs cs) []
    | c :: cs =>
      if c.isDigit then
        let p := readDigits (c.toNat - 48 : Int) cs
        some (.num p.1, p.2)
      else none
    | [] => none

/-- Read the fields of a JSON object after its opening brace. -/
def readJsonFields : Nat → List Char → List (String × Json) → Option (Json × List Char)
  | 0, _, _ => none
  | fuel + 1, cs, acc =>
    match cs with
    | '\x7d' :: rest => some (.obj acc.reverse, rest)
    | '"' :: cs1 =>
      match readStr cs1 with
      | some (k, cs2) =>
        match skipWs cs2 with
        | ':' :: cs3 =>
          match readJson fuel cs3 with
          | some (v, cs4) =>
            match skipWs cs4 with
            | ',' :: cs5 => readJsonFields fuel (skipWs cs5) ((k, v) :: acc)
            | '\x7d' :: rest => some (.obj ((k, v) :: acc).reverse, rest)
            | _ => none
          | none => none
        | _ => none
      | none => none
    | _ => none

end

/-- Parse a whole string as one JSON value. -/
def parseJson (s : String) : Option Json :=
  match readJson (s.toList.length + 1) s.toList with
  | some (v, rest) => if skipWs rest = [] then some v else none
  | none => none

/-! ### Model rewriter (`app/claude_client.py`, `_find_matching_model` /
`_replace_model_in_request`) -/

/-- Runtime configuration used by the rewriter (`app/config.py`:
`enable_model_swapping`, `model_mapping`; the mapping keeps insertion order,
as a Python dict does). -/
structure SwapConfig where
  enable_model_swapping : Bool
  model_mapping : List (String × String)

/-- Python `any(char in pattern for char in ['*', '?', '[', ']'])`. -/
def hasGlobChar (p : String) : Bool :=
  strContains p "*" || strContains p "?" || strContains p "[" || strContains p "]"

/-- Split a bracket-class body at its closing bracket; `none` when unclosed. -/
def splitClass : List Char → Option (List Char × List Char)
  | [] => none
  | ']' :: rest => some ([], rest)
  | c :: rest =>
    match splitClass rest with
    | some p => some (c :: p.1, p.2)
    | none => none

/-- Read a bracket class after its opening bracket, following
`fnmatch.translate`: a leading `!` negates, a bracket right after that is a
literal member. Returns (negated, members, rest of pattern). -/
def readClass (cs : List Char) : Option (Bool × List Char × List Char) :=
  match cs with
  | '!' :: ']' :: cs2 => (splitClass cs2).map (fun p => (true, ']' :: p.1, p.2))
  | '!' :: cs1 => (splitClass cs1).map (fun p => (true, p.1, p.2))
  | ']' :: cs1 => (splitClass cs1).map (fun p => (false, ']' :: p.1, p.2))
  | _ => (splitClass cs).map (fun p => (false, p.1, p.2))

/-- Membership of a char in a bracket class, with `a-b` ranges. -/
def classHas : List Char → Char → Bool
  | [], _ => false
  | [a], c => a == c
  | [a, b], c => a == c || b == c
  | a :: '-' :: b :: rest, c => (decide (a ≤ c) && decide (c ≤ b)) || classHas rest c
  | a :: rest, c => a == c || classHas rest c

/-- Shell-glob match of pattern against string (`fnmatch.fnmatch` on POSIX,
where `normcase` is the identity). Fuel-driven; every recursion shortens
pattern or string, so `|pattern| + |string| + 1` fuel is exact. -/
def globMatch : Nat → List Char → List Char → Bool
  | 0, _, _ => false
  | fuel + 1, ps, s =>
    match ps, s with
    | [], [] => true
    | [], _ :: _ => false
    | '*' :: ps1, [] => globMatch fuel ps1 []
    | '*' :: ps1, c :: s1 =>
      globMatch fuel ps1 (c :: s1) || globMatch fuel ('*' :: ps1) s1
    | '?' :: ps1, _ :: s1 => globMatch fuel ps1 s1
    | '?' :: _, [] => false
    | '[' :: ps1, c :: s1 =>
      (match readClass ps1 with
       | some t => (t.1 != classHas t.2.1 c) && globMatch fuel t.2.2 s1
       | none => ('[' == c) && globMatch fuel ps1 s1)
    | '[' :: _, [] => false
    | p :: ps1, c :: s1 => (p == c) && globMatch fuel ps1 s1
    | _ :: _, [] => false

/-- Python `fnmatch.fnmatch(name, pattern)`. -/
def fnmatchStr (name pat : String) : Bool :=
  globMatch (pat.length + name.length + 1) pat.toList name.toList

/-- Method `_find_matching_model`: exact mapping key first, then the first key that
contains a wildcard character and glob-matches; otherwise the name itself. -/
def findMatchingModel (cfg : SwapConfig) (modelName : String) : String :=
  if cfg.model_mapping.isEmpty then modelName
  else
    match cfg.model_mapping.find? (fun p => p.1 == modelName) with
    | some p => p.2
    | none =>
      match cfg.model_mapping.find? (fun p => hasGlobChar p.1 && fnmatchStr modelName p.1) with
      | some p => p.2
      | none => modelName

/-- Python dict assignment `d[k] = v`: replace in place, append when new. -/
def jsetFields (k : String) (v : Json) : List (String × Json) → List (String × Json)
  | [] => [(k, v)]
  | f :: fs => if f.1 == k then (k, v) :: fs else f :: jsetFields k v fs

/-- Python `d[k] = v` on a JSON value (no-op on non-objects). -/
def jset (j : Json) (k : String) (v : Json) : Json :=
  match j with
  | .obj fs => .obj (jsetFields k v fs)
  | j => j

/-- One entry of `messages[*].content[*]`: a dict with `type == "tool_use"`
gets its `name` rewritten through the mapping (string names; a non-string
name would make the Python glob raise, which no caller does). -/
def rewriteContentItem (cfg : SwapConfig) (item : Json) : Json :=
  if isObj item && isStr (jgetD item "type" .null) "tool_use" then
    match jget item "name" with
    | some (.str n) =>
      let n2 := findMatchingModel cfg n
      if n2 != n then jset item "name" (.str n2) else item
    | _ => item
  else item

/-- One entry of `messages`: walk its `content` list when it is a list. -/
def rewriteMessage (cfg : SwapConfig) (msg : Json) : Json :=
  match jget msg "content" with
  | some (.arr items) => jset msg "content" (.arr (items.map (rewriteContentItem cfg)))
  | _ => msg

/-- Method `_replace_model_in_request` on the parsed request body (byte decoding and
the decode-failure passthrough are abstracted away): replace a top-level
string `model` through the mapping, then rewrite `tool_use` names. -/
def replaceModelInRequest (cfg : SwapConfig) (body : Json) : Json :=
  if !cfg.enable_model_swapping || cfg.model_mapping.isEmpty then body
  else
    let b1 :=
      match jget body "model" with
      | some (.str m) =>
        let m2 := findMatchingModel cfg m
        if m2 != m then jset body "model" (.str m2) else body
      | _ => body
    match jget b1 "messages" with
    | some (.arr msgs) => jset b1 "messages" (.arr (msgs.map (rewriteMessage cfg)))
    | _ => b1

/-- In `app/routers/proxy.py` lines 80 and 120-126: the pipeline reads
`request_body` and passes it verbatim as `content=request_body` to
`claude_client.client.stream`; `_replace_model_in_request` is not applied on
this path. -/
def proxyForwardBody (requestBody : Json) : Json :=
  requestBody

/-! ### Pricing (`app/pricing.py`) -/

/-- One tier of a tiered price: `{"threshold": ..., "price": ...}`;
`threshold = none` is the Python `float('inf')`. -/
structure Tier where
  threshold : Option Int
  price : ℚ
deriving DecidableEq

/-- A per-token-class price: a scalar USD-per-million price or a tier list. -/
inductive Price where
  | flat (p : ℚ)
  | tiered (tiers : List Tier)
deriving DecidableEq

/-- One value of `CLAUDE_PRICING_TEMPLATES`. -/
structure PricingEntry where
  input_tokens : Price
  output_tokens : Price
  cache_write_tokens : Price
  cache_read_tokens : Price
deriving DecidableEq

/-- The table `CLAUDE_PRICING_TEMPLATES`, in source order. -/
def claudePricingTemplates : List (String × PricingEntry) :=
  [ ("claude-sonnet-4-5",
     { input_tokens := .tiered [⟨some 200000, 3⟩, ⟨none, 6⟩],
       output_tokens := .tiered [⟨some 200000, 15⟩, ⟨none, 22.5⟩],
       cache_write_tokens := .flat 3.75,
       cache_read_tokens := .flat 0.30 }),
    ("claude-opus-4-1",
     { input_tokens := .flat 15, output_tokens := .flat 75,
       cache_write_tokens := .flat 18.75, cache_read_tokens := .flat 1.50 }),
    ("claude-opus-4",
     { input_tokens := .flat 15, output_tokens := .flat 75,
       cache_write_tokens := .flat 18.75, cache_read_tokens := .flat 1.50 }),
    ("claude-sonnet-4",
     { input_tokens := .flat 3, output_tokens := .flat 15,
       cache_write_tokens := .flat 3.75, cache_read_tokens := .flat 0.30 }),
    ("claude-sonnet-3-7",
     { input_tokens := .flat 3, output_tokens := .flat 15,
       cache_write_tokens := .flat 3.75, cache_read_tokens := .flat 0.30 }),
    ("claude-3-5-sonnet",
     { input_tokens := .flat 3, output_tokens := .flat 15,
       cache_write_tokens := .flat 3.75, cache_read_tokens := .flat 0.30 }),
    ("claude-3-5-haiku",
     { input_tokens := .flat 0.80, output_tokens := .flat 4,
       cache_write_tokens := .flat 1, cache_read_tokens := .flat 0.08 }),
    ("claude-3-opus",
     { input_tokens := .flat 15, output_tokens := .flat 75,
       cache_write_tokens := .flat 18.75, cache_read_tokens := .flat 1.50 }),
    ("claude-3-haiku",
     { input_tokens := .flat 0.25, output_tokens := .flat 1.25,
       cache_write_tokens := .flat 0.30, cache_read_tokens := .flat 0.03 }),
    ("default",
     { input_tokens := .flat 3, output_tokens := .flat 15,
       cache_write_tokens := .flat 3.75, cache_read_tokens := .flat 0.30 }) ]

/-- The list `matching_rules` of `match_model_pricing`, in priority order:
(substring pattern, key into `CLAUDE_PRICING_TEMPLATES`). -/
def matchingRules : List (String × String) :=
  [ ("claude-sonnet-4-5", "claude-sonnet-4-5"),
    ("claude-4-5", "claude-sonnet-4-5"),
    ("claude-opus-4-1", "claude-opus-4-1"),
    ("claude-4-1", "claude-opus-4-1"),
    ("claude-sonnet-3-7", "claude-sonnet-3-7"),
    ("claude-3-7", "claude-sonnet-3-7"),
    ("claude-3-5-haiku", "claude-3-5-haiku"),
    ("claude-3-5-sonnet", "claude-3-5-sonnet"),
    ("claude-sonnet-4", "claude-sonnet-4"),
    ("claude-opus-4", "claude-opus-4"),
    ("claude-3-opus", "claude-3-opus"),
    ("claude-3-sonnet", "claude-3-sonnet"),
    ("claude-3-haiku", "claude-3-haiku") ]

/-- Python `CLAUDE_PRICING_TEMPLATES[key]`; `none` is a Python `KeyError`. -/
def lookupTemplate (k : String) : Option PricingEntry :=
  (claudePricingTemplates.find? (fun e => e.1 == k)).map (fun e => e.2)

/-- Function `match_model_pricing`: lowercase the name, take the first rule whose
pattern is a substring, and subscript the template table with its key
(raising, i.e. `none`, when that key is absent); default as fallback. -/
def matchModelPricing (modelName : String) : Option PricingEntry :=
  match matchingRules.find? (fun r => strContains (strLower modelName) r.1) with
  | some r => lookupTemplate r.2
  | none => lookupTemplate "default"

/-- Strict order on thresholds; `none` (`float('inf')`) is greatest. -/
def thLT (a b : Option Int) : Bool :=
  match a, b with
  | some x, some y => decide (x < y)
  | some _, none => true
  | none, _ => false

/-- Stable insertion of a tier into an already sorted list. -/
def insertTier (t : Tier) : List Tier → List Tier
  | [] => [t]
  | u :: us => if thLT u.threshold t.threshold then u :: insertTier t us else t :: u :: us

/-- Python `sorted(pricing_config, key=lambda x: x["threshold"])` (stable). -/
def sortTiers : List Tier → List Tier
  | [] => []
  | t :: ts => insertTier t (sortTiers ts)

/-- The tier loop of `_calculate_tiered_cost`: charge
`min(remaining, threshold - previous_threshold)` tokens at the tier price
when positive, then break once no tokens remain.  (After an infinite
threshold the loop always breaks, so keeping `prev` unchanged there is
unobservable.) -/
def tieredWalk : List Tier → Int → Int → ℚ → ℚ
  | [], _, _, acc => acc
  | t :: ts, remaining, prev, acc =>
    let tokensInTier : Int :=
      match t.threshold with
      | none => remaining
      | some thr => min remaining (thr - prev)
    let acc1 := if 0 < tokensInTier then acc + (tokensInTier : ℚ) / 1000000 * t.price else acc
    let remaining1 := if 0 < tokensInTier then remaining - tokensInTier else remaining
    let prev1 := match t.threshold with | none => prev | some thr => thr
    if remaining1 ≤ 0 then acc1 else tieredWalk ts remaining1 prev1 acc1

/-- Function `_calculate_tiered_cost(tokens, pricing_config)`. -/
def calculateTieredCost (tokens : Int) (pc : Price) : ℚ :=
  match pc with
  | .flat p => (tokens : ℚ) / 1000000 * p
  | .tiered cfg => tieredWalk (sortTiers cfg) tokens 0 0

/-- Python `round(q)`: round half to even. -/
def roundHalfEvenInt (q : ℚ) : Int :=
  let f := ⌊q⌋
  let r := q - (f : ℚ)
  if r < 1/2 then f
  else if 1/2 < r then f + 1
  else if f % 2 = 0 then f else f + 1

/-- Python `round(q, k)` (ideal decimal rounding of the modelled rational). -/
def roundTo (k : Nat) (q : ℚ) : ℚ :=
  (roundHalfEvenInt (q * (10 : ℚ) ^ k) : ℚ) / (10 : ℚ) ^ k

/-- Function `calculate_token_cost`: resolve the pricing (possibly a `KeyError`,
propagated as `none`), price the four classes, round to 8 decimals. -/
def calculateTokenCost (model : String)
    (inputTokens outputTokens cacheCreationTokens cacheReadTokens : Int) : Option ℚ :=
  match matchModelPricing model with
  | none => none
  | some pricing =>
    some (roundTo 8
      (calculateTieredCost inputTokens pricing.input_tokens
        + calculateTieredCost outputTokens pricing.output_tokens
        + calculateTieredCost cacheCreationTokens pricing.cache_write_tokens
        + calculateTieredCost cacheReadTokens pricing.cache_read_tokens))

/-- The price of the tier that contains the zero-based token index `n` of a
sorted tier list: the tier walk charges indices `T_{i-1} ≤ n < T_i` at the
price of tier `i` (claim C4's `price_of_tier_containing`). -/
def priceOfTierContaining : List Tier → Int → ℚ
  | [], _ => 0
  | t :: ts, n =>
    match t.threshold with
    | none => t.price
    | some thr => if n < thr then t.price else priceOfTierContaining ts n

/-! ### Usage ledger and limit engine (`app/database.py`, `app/crud.py`) -/

/-- One row of `usage_records` (the fields the core reads; `id` and
`error_message` are never consulted by it). Timestamps are UTC epoch
seconds. -/
structure UsageRecord where
  api_key_id : String
  endpoint : String := ""
  method : String := ""
  model : String := "unknown"
  input_tokens : Int := 0
  output_tokens : Int := 0
  cache_creation_tokens : Int := 0
  cache_read_tokens : Int := 0
  tokens_used : Int := 0
  cost : ℚ := 0
  request_size : Int := 0
  response_size : Int := 0
  processing_time : ℚ := 0
  output_tps : ℚ := 0
  timestamp : Int := 0
  status_code : Int := 200
deriving DecidableEq

/-- Sum of the `cost` column over a list of rows (`func.sum`, with
`.scalar() or 0.0` collapsing the empty case to zero). -/
def costSum : List UsageRecord → ℚ
  | [] => 0
  | r :: rs => r.cost + costSum rs

/-- The rows of one key inside the trailing 3600 s window
(`timestamp >= one_hour_ago`). -/
def windowRows (ledger : List UsageRecord) (now : Int) (apiKeyId : String) : List UsageRecord :=
  ledger.filter (fun r => r.api_key_id == apiKeyId && decide (now - 3600 ≤ r.timestamp))

/-- The `func.count` of the window rows. -/
def windowCount (ledger : List UsageRecord) (now : Int) (apiKeyId : String) : Int :=
  ((windowRows ledger now apiKeyId).length : Int)

/-- The `func.sum(cost)` of the window rows. -/
def windowCostSum (ledger : List UsageRecord) (now : Int) (apiKeyId : String) : ℚ :=
  costSum (windowRows ledger now apiKeyId)

/-- Python `datetime.utcnow().replace(hour=0, minute=0, second=0, microsecond=0)`:
midnight of the current UTC day. -/
def todayStart (now : Int) : Int :=
  (Int.fdiv now 86400) * 86400

/-- The `func.sum(cost)` over this key's rows since today's UTC midnight. -/
def todayCostSum (ledger : List UsageRecord) (now : Int) (apiKeyId : String) : ℚ :=
  costSum (ledger.filter (fun r => r.api_key_id == apiKeyId && decide (todayStart now ≤ r.timestamp)))

/-- The two shapes of the info dict returned by `check_rate_limit`. -/
inductive RateInfo where
  | unlimited
  | limited (rate_limit current_usage remaining : Int) (reset_time : Int)
deriving DecidableEq

/-- The two shapes of the info dict returned by `check_cost_limit`. -/
inductive CostInfo where
  | unlimited
  | limited (cost_limit current_cost remaining_cost : ℚ) (reset_time : Int)
deriving DecidableEq

/-- The two shapes of the info dict returned by `check_daily_quota`. -/
inductive QuotaInfo where
  | unlimited
  | limited (daily_quota current_usage remaining_quota : ℚ) (reset_time : Int)
deriving DecidableEq

/-- Function `check_rate_limit(db, api_key_id, rate_limit)`. -/
def checkRateLimit (ledger : List UsageRecord) (now : Int) (apiKeyId : String)
    (rateLimit : Int) : Bool × RateInfo :=
  if rateLimit ≤ 0 then (true, .unlimited)
  else
    let recent := windowCount ledger now apiKeyId
    (decide (recent < rateLimit),
     .limited rateLimit recent (max 0 (rateLimit - recent)) (now + 3600))

/-- Function `check_cost_limit(db, api_key_id, cost_limit)`. -/
def checkCostLimit (ledger : List UsageRecord) (now : Int) (apiKeyId : String)
    (costLimit : ℚ) : Bool × CostInfo :=
  if costLimit ≤ 0 then (true, .unlimited)
  else
    let recent := windowCostSum ledger now apiKeyId
    (decide (recent < costLimit),
     .limited costLimit (roundTo 6 recent) (max 0 (roundTo 6 (costLimit - recent))) (now + 3600))

/-- Function `check_daily_quota(db, api_key_id, daily_quota)`. -/
def checkDailyQuota (ledger : List UsageRecord) (now : Int) (apiKeyId : String)
    (dailyQuota : ℚ) : Bool × QuotaInfo :=
  if dailyQuota ≤ 0 then (true, .unlimited)
  else
    let today := todayCostSum ledger now apiKeyId
    (decide (today < dailyQuota),
     .limited dailyQuota (roundTo 6 today) (max 0 (roundTo 6 (dailyQuota - today))) (todayStart now + 86400))

/-! ### SSE meter (`record_stats` in `app/routers/proxy.py`,
`_extract_model_from_response` in `app/claude_client.py`) -/

/-- The meter counters and model of `record_stats`. -/
structure Meter where
  input : Int
  output : Int
  cacheCreation : Int
  cacheRead : Int
  model : String
deriving DecidableEq

/-- Initial meter state: counters 0, model `"unknown"`. -/
def initMeter : Meter :=
  ⟨0, 0, 0, 0, "unknown"⟩

/-- The per-event dispatch of the SSE token loop (proxy.py lines 224-253):
`message_start` seeds model and, when `usage` is truthy, all four counters;
`message_delta` replaces `output_tokens` when its `delta.usage` is truthy and
carries the key. Other event types change nothing. -/
def processEvent (st : Meter) (e : Json) : Meter :=
  let ty := jgetD e "type" .null
  if isStr ty "message_start" then
    let message := jgetD e "message" (.obj [])
    let model :=
      match jgetD message "model" (.str "unknown") with
      | .str s => s
      | _ => "unknown"
    let usage := jgetD message "usage" (.obj [])
    if jtruthy usage then
      { input := asIntD (jgetD usage "input_tokens" (.num 0)) 0,
        output := asIntD (jgetD usage "output_tokens" (.num 0)) 0,
        cacheCreation := asIntD (jgetD usage "cache_creation_input_tokens" (.num 0)) 0,
        cacheRead := asIntD (jgetD usage "cache_read_input_tokens" (.num 0)) 0,
        model := model }
    else
      { st with model := model }
  else if isStr ty "message_delta" then
    let usage := jgetD (jgetD e "delta" (.obj [])) "usage" (.obj [])
    if jtruthy usage && jhasKey usage "output_tokens" then
      { st with output := asIntD (jgetD usage "output_tokens" (.num 0)) 0 }
    else st
  else st

/-- The SSE token loop over the stream's decoded `data:` payloads. -/
def parseSSE (events : List Json) : Meter :=
  events.foldl processEvent initMeter

/-- The SSE part of `_extract_model_from_response`: first event that yields a
truthy model other than `"unknown"`, from `message_start.message.model` or
from a top-level `model` of `content_block_start` / `message` events. -/
def extractModelFromEvents : List Json → String
  | [] => "unknown"
  | e :: es =>
    let ty := jgetD e "type" .null
    if isStr ty "message_start" then
      match jget (jgetD e "message" (.obj [])) "model" with
      | some (.str m) => if m != "" && m != "unknown" then m else extractModelFromEvents es
      | _ => extractModelFromEvents es
    else if isStr ty "content_block_start" || isStr ty "message" then
      match jget e "model" with
      | some (.str m) => if m != "" && m != "unknown" then m else extractModelFromEvents es
      | _ => extractModelFromEvents es
    else extractModelFromEvents es

/-- The `"json" in content_type` branch of `record_stats` (proxy.py lines
264-281): when the parsed body is a dict, read `model` and, when `usage` is
truthy, the four counters from the root object. -/
def meterReadRoot (body : Json) : Meter :=
  match body with
  | .obj fs =>
    let model :=
      match jgetD (.obj fs) "model" (.str "unknown") with
      | .str s => s
      | _ => "unknown"
    let usage := jgetD (.obj fs) "usage" (.obj [])
    if jtruthy usage then
      { input := asIntD (jgetD usage "input_tokens" (.num 0)) 0,
        output := asIntD (jgetD usage "output_tokens" (.num 0)) 0,
        cacheCreation := asIntD (jgetD usage "cache_creation_input_tokens" (.num 0)) 0,
        cacheRead := asIntD (jgetD usage "cache_read_input_tokens" (.num 0)) 0,
        model := model }
    else
      { initMeter with model := model }
  | _ => initMeter

/-- The content-type dispatch of `record_stats` (proxy.py lines 218, 264,
282-283): SSE when the content type contains `text/event-stream`, root-object
JSON when it contains `json`, otherwise parsing is skipped and every counter
stays zero. `events` is the decoded SSE payload list, `body` the parsed JSON
body; each is only consulted by its own branch. -/
def meterDispatch (contentType : String) (events : List Json) (body : Json) : Meter :=
  if strContains contentType "text/event-stream" then parseSSE events
  else if strContains contentType "json" then meterReadRoot body
  else initMeter

/-- Python truthiness of an optional timestamp (`if first_token_time and
last_token_time`). -/
def pyTruthyTime : Option ℚ → Bool
  | none => false
  | some t => t != 0

/-- proxy.py lines 255-262: real token generation time when both timing
markers are truthy and `output_tokens > 0`, wall-clock processing time
otherwise. -/
def generationTime (firstTokenTime lastTokenTime : Option ℚ) (outputTokens : Int)
    (processingTime : ℚ) : ℚ :=
  if pyTruthyTime firstTokenTime && pyTruthyTime lastTokenTime && decide (0 < outputTokens) then
    lastTokenTime.getD 0 - firstTokenTime.getD 0
  else processingTime

/-- proxy.py lines 293-295: `output_tps` stays 0.0 unless
`output_tokens > 0 and generation_time > 0`. -/
def outputTps (outputTokens : Int) (genTime : ℚ) : ℚ :=
  if 0 < outputTokens ∧ 0 < genTime then (outputTokens : ℚ) / genTime else 0

/-- What `record_stats` hands to `record_usage_detailed` for an SSE response
(proxy.py lines 224-253, 285-305, 329-347): the meter counters, the model
(with the `_extract_model_from_response` fallback when still unknown),
`total_tokens` as the sum of the four counters, and the `calculate_token_cost`
price; a raised exception inside the parse block (here: the `KeyError` of
`match_model_pricing`, i.e. `none`) falls back to zero counters, model
`"unknown"` and cost 0 (lines 316-327). -/
structure MeterResult where
  model : String
  input_tokens : Int
  output_tokens : Int
  cache_creation_tokens : Int
  cache_read_tokens : Int
  tokens_used : Int
  cost : ℚ
deriving DecidableEq

/-- See `MeterResult`. -/
def recordStatsSSERow (events : List Json) : MeterResult :=
  let st := parseSSE events
  let model := if st.model == "unknown" then extractModelFromEvents events else st.model
  let total := st.input + st.output + st.cacheCreation + st.cacheRead
  match calculateTokenCost model st.input st.output st.cacheCreation st.cacheRead with
  | some c => ⟨model, st.input, st.output, st.cacheCreation, st.cacheRead, total, c⟩
  | none => ⟨"unknown", 0, 0, 0, 0, 0, 0⟩

/-- The JSON value under key `k` is an integer or absent. -/
def intOrAbsent (j : Json) (k : String) : Bool :=
  match jget j k with
  | none => true
  | some (.num _) => true
  | some _ => false

/-- The JSON value under key `k` is a string or absent. -/
def strOrAbsent (j : Json) (k : String) : Bool :=
  match jget j k with
  | none => true
  | some (.str _) => true
  | some _ => false

/-- A usage object the Python meter reads without raising: a dict whose
counter fields, if present, are integers. -/
def usageWellFormed (u : Json) : Bool :=
  isObj u && intOrAbsent u "input_tokens" && intOrAbsent u "output_tokens"
    && intOrAbsent u "cache_creation_input_tokens" && intOrAbsent u "cache_read_input_tokens"

/-- An SSE event on which the Python attribute accesses of `record_stats` and
the embedding agree: the event is a dict, nested `message` / `delta` / their
`usage` are dicts when present, `message.model` and top-level `model` are
strings when present. -/
def eventWellFormed (e : Json) : Bool :=
  isObj e
    && (match jget e "message" with
        | none => true
        | some m => isObj m && strOrAbsent m "model"
            && (match jget m "usage" with | none => true | some u => usageWellFormed u))
    && (match jget e "delta" with
        | none => true
        | some d => isObj d && (match jget d "usage" with | none => true | some u => usageWellFormed u))
    && strOrAbsent e "model"

/-! ### Empty-body shield (`app/routers/proxy.py` lines 188-195, 352-366) -/

/-- What the pipeline sends back, plus the ledger rows its metering task will
append for this request. -/
structure ProxyReply where
  status : Int
  body : String
  ledgerWrites : List UsageRecord
deriving DecidableEq

/-- The literal 502 body of proxy.py line 192. -/
def emptyUpstreamErrorBody : String :=
  "\x7b\"error\": \x7b\"message\": \"Empty response from upstream API\", \"type\": \"proxy_error\"\x7d\x7d"

/-- After the upstream response is fully buffered: a 200 status with an empty
buffer short-circuits to the synthetic 502 *before* `record_stats` is
scheduled (lines 189-195); any other outcome returns the upstream status and
body and schedules the metering task, which appends one ledger row
(`meterRow`). -/
def respondAfterBuffer (upstreamStatus : Int) (content : String) (meterRow : UsageRecord) : ProxyReply :=
  if upstreamStatus == 200 && content.length == 0 then
    { status := 502, body := emptyUpstreamErrorBody, ledgerWrites := [] }
  else
    { status := upstreamStatus, body := content, ledgerWrites := [meterRow] }

/-! ### Daily aggregator (`aggregate_daily_usage` in `app/crud.py`) -/

/-- Python `func.date(timestamp)` on an epoch-second timestamp: the UTC day number. -/
def dayOfTimestamp (t : Int) : Int :=
  Int.fdiv t 86400

/-- One row of `daily_usage` (`id` is never consulted). The `date` column is
modelled by the UTC day number. -/
structure DailyUsageRow where
  api_key_id : String
  date : Int
  model : String
  total_requests : Int
  total_input_tokens : Int
  total_output_tokens : Int
  total_cache_creation_tokens : Int
  total_cache_read_tokens : Int
  total_tokens : Int
  total_cost : ℚ
  avg_processing_time : ℚ
  avg_output_tps : ℚ
deriving DecidableEq

/-- The accumulating dict value of `usage_summary` in `aggregate_daily_usage`. -/
structure DailySummary where
  total_requests : Int
  total_input_tokens : Int
  total_output_tokens : Int
  total_cache_creation_tokens : Int
  total_cache_read_tokens : Int
  total_tokens : Int
  total_cost : ℚ
  processing_times : List ℚ
  output_tps_values : List ℚ
deriving DecidableEq

/-- The freshly initialised summary dict. -/
def emptySummary : DailySummary :=
  ⟨0, 0, 0, 0, 0, 0, 0, [], []⟩

/-- Folding one ledger row into a summary (crud.py lines 407-418). -/
def updateSummary (s : DailySummary) (r : UsageRecord) : DailySummary :=
  { total_requests := s.total_requests + 1,
    total_input_tokens := s.total_input_tokens + r.input_tokens,
    total_output_tokens := s.total_output_tokens + r.output_tokens,
    total_cache_creation_tokens := s.total_cache_creation_tokens + r.cache_creation_tokens,
    total_cache_read_tokens := s.total_cache_read_tokens + r.cache_read_tokens,
    total_tokens := s.total_tokens + r.tokens_used,
    total_cost := s.total_cost + r.cost,
    processing_times :=
      if 0 < r.processing_time then s.processing_times ++ [r.processing_time] else s.processing_times,
    output_tps_values :=
      if 0 < r.output_tps then s.output_tps_values ++ [r.output_tps] else s.output_tps_values }

/-- Replace the first list element satisfying `p` by its image under `f`. -/
def replaceFirst {α : Type} (p : α → Bool) (f : α → α) : List α → List α
  | [] => []
  | x :: xs => if p x then f x :: xs else x :: replaceFirst p f xs

/-- Whether a grouping entry carries the key `(apiKeyId, model)`. -/
def keyMatches (apiKeyId model : String) (g : (String × String) × DailySummary) : Bool :=
  g.1.1 == apiKeyId && g.1.2 == model

/-- One step of building `usage_summary`: a Python dict keyed by
`(api_key_id, model)` in first-seen order (crud.py lines 391-418). -/
def addToGroups (acc : List ((String × String) × DailySummary)) (r : UsageRecord) :
    List ((String × String) × DailySummary) :=
  if acc.any (keyMatches r.api_key_id r.model) then
    replaceFirst (keyMatches r.api_key_id r.model) (fun g => (g.1, updateSummary g.2 r)) acc
  else acc ++ [((r.api_key_id, r.model), updateSummary emptySummary r)]

/-- The dict `usage_summary` for the ledger rows of one calendar date. -/
def groupLedger (ledger : List UsageRecord) (date : Int) :
    List ((String × String) × DailySummary) :=
  (ledger.filter (fun r => dayOfTimestamp r.timestamp == date)).foldl addToGroups []

/-- Python `sum(l)/len(l) if l else 0` (crud.py lines 422-423). -/
def avgOf (l : List ℚ) : ℚ :=
  if l.isEmpty then 0 else (l.foldr (· + ·) 0) / (l.length : ℚ)

/-- The `existing` filter of the upsert (crud.py lines 426-432). -/
def rowMatches (apiKeyId : String) (date : Int) (model : String) (row : DailyUsageRow) : Bool :=
  row.api_key_id == apiKeyId && row.date == date && row.model == model

/-- Overwriting an existing `DailyUsage` row with a recomputed summary
(crud.py lines 434-444; key columns are untouched). -/
def setRowFields (s : DailySummary) (row : DailyUsageRow) : DailyUsageRow :=
  { row with
    total_requests := s.total_requests,
    total_input_tokens := s.total_input_tokens,
    total_output_tokens := s.total_output_tokens,
    total_cache_creation_tokens := s.total_cache_creation_tokens,
    total_cache_read_tokens := s.total_cache_read_tokens,
    total_tokens := s.total_tokens,
    total_cost := s.total_cost,
    avg_processing_time := avgOf s.processing_times,
    avg_output_tps := avgOf s.output_tps_values }

/-- A freshly inserted `DailyUsage` row (crud.py lines 446-461). -/
def newDailyRow (k : String × String) (date : Int) (s : DailySummary) : DailyUsageRow :=
  ⟨k.1, date, k.2, s.total_requests, s.total_input_tokens, s.total_output_tokens,
   s.total_cache_creation_tokens, s.total_cache_read_tokens, s.total_tokens, s.total_cost,
   avgOf s.processing_times, avgOf s.output_tps_values⟩

/-- The upsert of one summary group into the `DailyUsage` table (crud.py
lines 421-461): update the first matching `(api_key_id, date, model)` row in
place, else append a new row. -/
def upsertGroup (date : Int) (table : List DailyUsageRow)
    (g : (String × String) × DailySummary) : List DailyUsageRow :=
  if table.any (rowMatches g.1.1 date g.1.2) then
    replaceFirst (rowMatches g.1.1 date g.1.2) (setRowFields g.2) table
  else table ++ [newDailyRow g.1 date g.2]

/-- Function `aggregate_daily_usage(db, date)`: group the date's ledger rows by
`(api_key_id, model)`, then upsert every group. -/
def aggregateDailyUsage (ledger : List UsageRecord) (table : List DailyUsageRow)
    (date : Int) : List DailyUsageRow :=
  (groupLedger ledger date).foldl (upsertGroup date) table

/-! ### Observations used in theorem statements -/

/-- The event is a `message_start` (same test as the meter dispatch). -/
def isMessageStart (e : Json) : Bool :=
  isStr (jgetD e "type" .null) "message_start"

/-- The `message.usage` object a `message_start` event carries. -/
def msgStartUsage (e : Json) : Json :=
  jgetD (jgetD e "message" (.obj [])) "usage" (.obj [])

/-- The four counters the meter reads from a `message_start` event. -/
def msgStartReads (e : Json) : Int × Int × Int × Int :=
  (asIntD (jgetD (msgStartUsage e) "input_tokens" (.num 0)) 0,
   asIntD (jgetD (msgStartUsage e) "output_tokens" (.num 0)) 0,
   asIntD (jgetD (msgStartUsage e) "cache_creation_input_tokens" (.num 0)) 0,
   asIntD (jgetD (msgStartUsage e) "cache_read_input_tokens" (.num 0)) 0)

/-- The event is a `message_delta` whose truthy `delta.usage` carries
`output_tokens = n`. -/
def isDeltaOutput (e : Json) (n : Int) : Bool :=
  isStr (jgetD e "type" .null) "message_delta"
    && jtruthy (jgetD (jgetD e "delta" (.obj [])) "usage" (.obj []))
    && jhasKey (jgetD (jgetD e "delta" (.obj [])) "usage" (.obj [])) "output_tokens"
    && (asIntD (jgetD (jgetD (jgetD e "delta" (.obj [])) "usage" (.obj [])) "output_tokens" (.num 0)) 0 == n)

/-- The first row of the daily table matching a group key already carries
exactly the recomputed summary, so overwriting it again changes nothing. -/
def FirstMatchFixed (k : String × String) (date : Int) (s : DailySummary)
    (t : List DailyUsageRow) : Prop :=
  ∃ r, t.find? (rowMatches k.1 date k.2) = some r ∧ setRowFields s r = r

/-- The grouping keys are pairwise distinct. -/
def NodupKeys (gs : List ((String × String) × DailySummary)) : Prop :=
  gs.Pairwise (fun g g' => ¬(g.1.1 = g'.1.1 ∧ g.1.2 = g'.1.2))

/-! ### Concrete inputs used by individual claims -/

/-- A request body with top-level model `"A"` and a `tool_use` block named
`"A"`. -/
def c1RequestBody : Json :=
  .obj [("model", .str "A"),
        ("messages", .arr [.obj [("content",
          .arr [.obj [("type", .str "tool_use"), ("name", .str "A")]])]])]

/-- Feature flag on, mapping `{"A": "B"}`. -/
def c1SwapConfig : SwapConfig :=
  ⟨true, [("A", "B")]⟩

/-- The SSE `message_start` event of claim C6's scenario. -/
def c6Event1 : Json :=
  .obj [("type", .str "message_start"),
        ("message", .obj [("model", .str "claude-3-5-haiku-20241022"),
          ("usage", .obj [("input_tokens", .num 100), ("output_tokens", .num 0),
            ("cache_creation_input_tokens", .num 0),
            ("cache_read_input_tokens", .num 50)])])]

/-- The terminating `message_delta` event of claim C6's scenario. -/
def c6Event2 : Json :=
  .obj [("type", .str "message_delta"),
        ("delta", .obj [("usage", .obj [("output_tokens", .num 250)])])]

/-- A JSON body carrying usage, served under a non-JSON non-SSE content type
in claim C7's counterexample. -/
def c7Body : Json :=
  .obj [("model", .str "m"),
        ("usage", .obj [("input_tokens", .num 7), ("output_tokens", .num 8),
          ("cache_creation_input_tokens", .num 0), ("cache_read_input_tokens", .num 0)])]

/-! ### Helper lemmas and claim theorems -/

/-- The synthetic 502 body of the pipeline parses to the specified object. -/
theorem parse_empty_error_body :
    parseJson emptyUpstreamErrorBody
      = some (.obj [("error", .obj [("message", .str "Empty response from upstream API"),
                                    ("type", .str "proxy_error")])]) := by
  rfl

/-- Claim C1 (code bug). With model swapping enabled and mapping
`{"A": "B"}`, the model rewriter maps the request model and the `tool_use`
name `"A"` to `"B"`; but the pipeline forwards the original body verbatim
(`proxy.py` passes `request_body` to the raw HTTP client and never calls
`_replace_model_in_request`), so the body sent upstream still carries model
`"A"` and is not the rewriter output. -/
theorem c1_pipeline_skips_model_rewriter :
    proxyForwardBody c1RequestBody = c1RequestBody
    ∧ replaceModelInRequest c1SwapConfig c1RequestBody
        = .obj [("model", .str "B"),
                ("messages", .arr [.obj [("content",
                  .arr [.obj [("type", .str "tool_use"), ("name", .str "B")]])]])]
    ∧ jget c1RequestBody "model" = some (.str "A") :=
  ⟨rfl, rfl, rfl⟩

/-- Claim C5 (code bug). Resolution of `"claude-3-sonnet-20240229"` picks the
rule `("claude-3-sonnet", "claude-3-sonnet")` - the first pattern occurring
in the lowercased name - but `CLAUDE_PRICING_TEMPLATES` has no key
`"claude-3-sonnet"`, so the subscript raises `KeyError` (modelled `none`)
instead of returning that pattern's schedule; names matching no pattern do
resolve to `default`. -/
theorem c5_resolution_raises_keyerror :
    matchModelPricing "claude-3-sonnet-20240229" = none
    ∧ matchingRules.find? (fun r => strContains (strLower "claude-3-sonnet-20240229") r.1)
        = some ("claude-3-sonnet", "claude-3-sonnet")
    ∧ lookupTemplate "claude-3-sonnet" = none
    ∧ matchModelPricing "totally-unknown-model" = lookupTemplate "default" :=
  ⟨rfl, rfl, rfl, rfl⟩

/-- Claim C2. When the upstream status is 200 and the buffered body is empty,
the pipeline replies 502, writes no ledger row, and the reply body is exactly
the JSON object
`{"error": {"message": "Empty response from upstream API", "type": "proxy_error"}}`. -/
theorem c2_empty_200_returns_502_no_ledger_row (content : String) (row : UsageRecord)
    (hlen : content.length = 0) :
    (respondAfterBuffer 200 content row).status = 502
    ∧ (respondAfterBuffer 200 content row).ledgerWrites = []
    ∧ parseJson (respondAfterBuffer 200 content row).body
        = some (.obj [("error", .obj [("message", .str "Empty response from upstream API"),
                                      ("type", .str "proxy_error")])]) := by
    refine ⟨?_, ?_, ?_⟩ <;> simp [respondAfterBuffer, hlen, parse_empty_error_body]

/-- Witness for C2 at the concrete empty body. -/
theorem c2_empty_200_returns_502_no_ledger_row_witness :
    (respondAfterBuffer 200 "" { api_key_id := "k" }).status = 502
    ∧ (respondAfterBuffer 200 "" { api_key_id := "k" }).ledgerWrites = []
    ∧ parseJson (respondAfterBuffer 200 "" { api_key_id := "k" }).body
        = some (.obj [("error", .obj [("message", .str "Empty response from upstream API"),
                                      ("type", .str "proxy_error")])]) :=
  c2_empty_200_returns_502_no_ledger_row "" { api_key_id := "k" } rfl

/-- Claim C10. Each admission check treats a limit `≤ 0` - negative values
included - as unlimited: it answers `(allowed, unlimited)` without consulting
the ledger (the result is the same for every ledger argument). -/
theorem c10_nonpositive_limit_always_admits (ledger : List UsageRecord) (now : Int)
    (apiKeyId : String) (rl : Int) (cl dq : ℚ)
    (hrl : rl ≤ 0) (hcl : cl ≤ 0) (hdq : dq ≤ 0) :
    checkRateLimit ledger now apiKeyId rl = (true, .unlimited)
    ∧ checkCostLimit ledger now apiKeyId cl = (true, .unlimited)
    ∧ checkDailyQuota ledger now apiKeyId dq = (true, .unlimited) := by
  refine ⟨?_, ?_, ?_⟩
  · simp only [checkRateLimit]; rw [if_pos hrl]
  · simp only [checkCostLimit]; rw [if_pos hcl]
  · simp only [checkDailyQuota]; rw [if_pos hdq]

/-- Witness for C10: a key with negative limits is admitted even over a
ledger that already has a fresh row. -/
theorem c10_nonpositive_limit_always_admits_witness :
    checkRateLimit [{ api_key_id := "k", cost := 7, timestamp := 999999 }] 1000000 "k" (-5)
        = (true, .unlimited)
    ∧ checkCostLimit [{ api_key_id := "k", cost := 7, timestamp := 999999 }] 1000000 "k" (-1/2)
        = (true, .unlimited)
    ∧ checkDailyQuota [{ api_key_id := "k", cost := 7, timestamp := 999999 }] 1000000 "k" (-3)
        = (true, .unlimited) :=
  c10_nonpositive_limit_always_admits _ _ _ _ _ _ (by norm_num) (by norm_num) (by norm_num)

/-- Claim C3. For positive limits, each check admits exactly when its window
aggregate is strictly below the limit, and rejects exactly when the aggregate
has reached the limit: the row count over the trailing 3600 s for the rate
check, the cost sum over the trailing 3600 s for the cost check, and the cost
sum since UTC midnight for the daily quota. -/
theorem c3_admission_iff_below_limit (ledger : List UsageRecord) (now : Int)
    (apiKeyId : String) (rl : Int) (cl dq : ℚ)
    (hrl : 0 < rl) (hcl : 0 < cl) (hdq : 0 < dq) :
    ((checkRateLimit ledger now apiKeyId rl).1 = true ↔ windowCount ledger now apiKeyId < rl)
    ∧ ((checkRateLimit ledger now apiKeyId rl).1 = false ↔ rl ≤ windowCount ledger now apiKeyId)
    ∧ ((checkCostLimit ledger now apiKeyId cl).1 = true ↔ windowCostSum ledger now apiKeyId < cl)
    ∧ ((checkCostLimit ledger now apiKeyId cl).1 = false ↔ cl ≤ windowCostSum ledger now apiKeyId)
    ∧ ((checkDailyQuota ledger now apiKeyId dq).1 = true ↔ todayCostSum ledger now apiKeyId < dq)
    ∧ ((checkDailyQuota ledger now apiKeyId dq).1 = false ↔ dq ≤ todayCostSum ledger now apiKeyId) := by
  have h1 : ¬ rl ≤ 0 := not_le.mpr hrl
  have h2 : ¬ cl ≤ 0 := not_le.mpr hcl
  have h3 : ¬ dq ≤ 0 := not_le.mpr hdq
  refine ⟨?_, ?_, ?_, ?_, ?_, ?_⟩ <;>
    simp [checkRateLimit, checkCostLimit, checkDailyQuota, h1, h2, h3,
      decide_eq_true_eq, decide_eq_false_iff_not, not_lt]

/-- Witness for C3 over a one-row ledger at the limit. -/
theorem c3_admission_iff_below_limit_witness :
    ((checkRateLimit [{ api_key_id := "k", cost := 2, timestamp := 5000 }] 5000 "k" 1).1 = true
        ↔ windowCount [{ api_key_id := "k", cost := 2, timestamp := 5000 }] 5000 "k" < 1)
    ∧ ((checkRateLimit [{ api_key_id := "k", cost := 2, timestamp := 5000 }] 5000 "k" 1).1 = false
        ↔ 1 ≤ windowCount [{ api_key_id := "k", cost := 2, timestamp := 5000 }] 5000 "k")
    ∧ ((checkCostLimit [{ api_key_id := "k", cost := 2, timestamp := 5000 }] 5000 "k" 1).1 = true
        ↔ windowCostSum [{ api_key_id := "k", cost := 2, timestamp := 5000 }] 5000 "k" < 1)
    ∧ ((checkCostLimit [{ api_key_id := "k", cost := 2, timestamp := 5000 }] 5000 "k" 1).1 = false
        ↔ 1 ≤ windowCostSum [{ api_key_id := "k", cost := 2, timestamp := 5000 }] 5000 "k")
    ∧ ((checkDailyQuota [{ api_key_id := "k", cost := 2, timestamp := 5000 }] 5000 "k" 1).1 = true
        ↔ todayCostSum [{ api_key_id := "k", cost := 2, timestamp := 5000 }] 5000 "k" < 1)
    ∧ ((checkDailyQuota [{ api_key_id := "k", cost := 2, timestamp := 5000 }] 5000 "k" 1).1 = false
        ↔ 1 ≤ todayCostSum [{ api_key_id := "k", cost := 2, timestamp := 5000 }] 5000 "k") :=
  c3_admission_iff_below_limit _ 5000 "k" 1 1 1 (by norm_num) (by norm_num) (by norm_num)

/-- Claim C7, amended: the meter parses the buffered body as JSON and reads
the root `model`/`usage` fields only when the (non-SSE) content type contains
the substring "json"; for every other non-SSE content type the token parsing
is skipped and all counters stay zero. -/
theorem c7_json_only_parsing (contentType : String) (events : List Json) (body : Json)
    (hsse : strContains contentType "text/event-stream" = false) :
    (strContains contentType "json" = true →
        meterDispatch contentType events body = meterReadRoot body)
    ∧ (strContains contentType "json" = false →
        meterDispatch contentType events body = initMeter) := by
  constructor <;> intro hj <;> simp [meterDispatch, hsse, hj]

/-- Counterexample to C7 as stated: content type `text/plain` does not begin
with `text/event-stream`, its body carries `usage.input_tokens = 7` at the
root, yet the meter skips parsing and reports 0, not the root reading. -/
theorem c7_counterexample_plaintext_skipped :
    meterDispatch "text/plain" [] c7Body = initMeter
    ∧ (meterReadRoot c7Body).input = 7
    ∧ ¬ (meterDispatch "text/plain" [] c7Body).input = (meterReadRoot c7Body).input :=
  ⟨rfl, rfl, by decide⟩

/-- Witness for the amended C7 at a JSON-labelled content type. -/
theorem c7_json_only_parsing_witness :
    (strContains "application/json" "json" = true →
        meterDispatch "application/json" [] c7Body = meterReadRoot c7Body)
    ∧ (strContains "application/json" "json" = false →
        meterDispatch "application/json" [] c7Body = initMeter) :=
  c7_json_only_parsing "application/json" [] c7Body (by decide)

/-- Claim C8. Generation time is `last − first` exactly when both timing
markers exist (they are `time.time()` values, hence positive when present)
and `output_tokens > 0`, wall-clock processing time otherwise; `output_tps`
is `output_tokens / generation_time` when both are positive and 0 otherwise. -/
theorem c8_generation_time_and_tps (firstTok lastTok : Option ℚ) (outTok : Int)
    (procTime genT : ℚ)
    (hf : ∀ t, firstTok = some t → 0 < t) (hl : ∀ t, lastTok = some t → 0 < t) :
    (generationTime firstTok lastTok outTok procTime
        = if firstTok.isSome ∧ lastTok.isSome ∧ 0 < outTok
          then lastTok.getD 0 - firstTok.getD 0
          else procTime)
    ∧ (0 < outTok ∧ 0 < genT → outputTps outTok genT = (outTok : ℚ) / genT)
    ∧ (¬ (0 < outTok ∧ 0 < genT) → outputTps outTok genT = 0) := by
  refine ⟨?_, fun h => by simp [outputTps, h], fun h => by simp [outputTps, h]⟩
  rcases firstTok with _ | ft
  · simp [generationTime, pyTruthyTime]
  · rcases lastTok with _ | lt2
    · simp [generationTime, pyTruthyTime]
    · have hft : ft ≠ 0 := ne_of_gt (hf ft rfl)
      have hlt : lt2 ≠ 0 := ne_of_gt (hl lt2 rfl)
      by_cases ho : 0 < outTok <;>
        simp [generationTime, pyTruthyTime, hft, hlt, ho]

/-- Witness for C8 at markers 10 and 12, five output tokens. -/
theorem c8_generation_time_and_tps_witness :
    (generationTime (some 10) (some 12) 5 99
        = if (some (10:ℚ)).isSome ∧ (some (12:ℚ)).isSome ∧ 0 < (5:Int)
          then (some (12:ℚ)).getD 0 - (some (10:ℚ)).getD 0
          else 99)
    ∧ (0 < (5:Int) ∧ 0 < (2:ℚ) → outputTps 5 2 = ((5:Int) : ℚ) / 2)
    ∧ (¬ (0 < (5:Int) ∧ 0 < (2:ℚ)) → outputTps 5 2 = 0) :=
  c8_generation_time_and_tps (some 10) (some 12) 5 99 2
    (by intro t h; simp only [Option.some.injEq] at h; rw [← h]; norm_num)
    (by intro t h; simp only [Option.some.injEq] at h; rw [← h]; norm_num)

/-- Closed form of the tier walk on a two-tier schedule (finite threshold
`T > 0`, then infinite). -/
theorem tieredWalk_two (T : Int) (p1 p2 : ℚ) (n : Int) (hT : 0 < T) (hn : 0 ≤ n) :
    tieredWalk [⟨some T, p1⟩, ⟨none, p2⟩] n 0 0
      = if n ≤ T then (n : ℚ) / 1000000 * p1
        else (T : ℚ) / 1000000 * p1 + ((n - T : Int) : ℚ) / 1000000 * p2 := by
  rcases eq_or_lt_of_le hn with h0 | hpos
  · rw [← h0]
    simp [tieredWalk, hT, hT.le]
  · by_cases hnT : n ≤ T
    · have hmin : min n (T - 0) = n := by omega
      have hz : n - n ≤ 0 := by omega
      simp [tieredWalk, hmin, hpos, hz, hnT]
    · have hmin : min n (T - 0) = T := by omega
      simp only [tieredWalk, hmin]
      split_ifs <;> first | (exfalso; omega) | (push_cast; ring)

/-- Marginal cost of the two-tier walk: adding a token at count `N` charges
exactly the price of the tier containing index `N`. -/
theorem tieredWalk_two_marginal (T : Int) (p1 p2 : ℚ) (N : Nat) (hT : 0 < T) :
    tieredWalk [⟨some T, p1⟩, ⟨none, p2⟩] ((N : Int) + 1) 0 0
      - tieredWalk [⟨some T, p1⟩, ⟨none, p2⟩] (N : Int) 0 0
      = priceOfTierContaining [⟨some T, p1⟩, ⟨none, p2⟩] (N : Int) / 1000000 := by
  rw [tieredWalk_two T p1 p2 _ hT (by positivity), tieredWalk_two T p1 p2 _ hT (Int.ofNat_nonneg N)]
  simp only [priceOfTierContaining]
  by_cases h1 : (N : Int) + 1 ≤ T
  · rw [if_pos h1, if_pos (by omega : (N : Int) ≤ T), if_pos (by omega : (N : Int) < T)]
    push_cast
    ring
  · rw [if_neg h1]
    by_cases h2 : (N : Int) ≤ T
    · have hNT : (N : Int) = T := by omega
      rw [if_pos h2, if_neg (by omega : ¬ (N : Int) < T), hNT]
      push_cast
      ring
    · rw [if_neg h2, if_neg (by omega : ¬ (N : Int) < T)]
      push_cast
      ring

/-- Claim C4. For every entry of the pricing table and every token class
whose schedule is tiered, the per-class cost function satisfies
`cost(N+1) − cost(N) = price_of_tier_containing(N) / 1_000_000` for all
`N ≥ 0`. -/
theorem c4_tiered_marginal_cost (ne : String × PricingEntry)
    (hmem : ne ∈ claudePricingTemplates) (pc : Price)
    (hpc : pc = ne.2.input_tokens ∨ pc = ne.2.output_tokens
        ∨ pc = ne.2.cache_write_tokens ∨ pc = ne.2.cache_read_tokens)
    (tiers : List Tier) (ht : pc = .tiered tiers) (N : Nat) :
    calculateTieredCost ((N : Int) + 1) pc - calculateTieredCost (N : Int) pc
      = priceOfTierContaining (sortTiers tiers) (N : Int) / 1000000 := by
  subst ht
  simp only [claudePricingTemplates, List.mem_cons, List.not_mem_nil, or_false] at hmem
  rcases hmem with rfl | rfl | rfl | rfl | rfl | rfl | rfl | rfl | rfl | rfl <;>
    rcases hpc with h | h | h | h
  all_goals try exact Price.noConfusion h
  · injection h with h2
    subst h2
    exact tieredWalk_two_marginal 200000 3 6 N (by norm_num)
  · injection h with h2
    subst h2
    exact tieredWalk_two_marginal 200000 15 22.5 N (by norm_num)

/-- Witness for C4: the first chargeable token of the sonnet-4-5 input
schedule costs the first-tier price. -/
theorem c4_tiered_marginal_cost_witness :
    calculateTieredCost 1 (Price.tiered [⟨some 200000, 3⟩, ⟨none, 6⟩])
      - calculateTieredCost 0 (Price.tiered [⟨some 200000, 3⟩, ⟨none, 6⟩])
      = priceOfTierContaining (sortTiers [⟨some 200000, 3⟩, ⟨none, 6⟩]) 0 / 1000000 :=
  c4_tiered_marginal_cost ("claude-sonnet-4-5",
      { input_tokens := .tiered [⟨some 200000, 3⟩, ⟨none, 6⟩],
        output_tokens := .tiered [⟨some 200000, 15⟩, ⟨none, 22.5⟩],
        cache_write_tokens := .flat 3.75,
        cache_read_tokens := .flat 0.30 })
    (by unfold claudePricingTemplates; exact List.mem_cons_self _ _)
    (Price.tiered [⟨some 200000, 3⟩, ⟨none, 6⟩]) (Or.inl rfl)
    [⟨some 200000, 3⟩, ⟨none, 6⟩] rfl 0

/-- A JSON value that is one string is not another. -/
theorem isStr_of_ne (j : Json) (s1 s2 : String) (h : isStr j s1 = true) (hne : s1 ≠ s2) :
    isStr j s2 = false := by
  cases j <;> simp [isStr] at h ⊢
  rename_i t
  rw [h]
  exact hne

/-- A non-`message_start` event leaves the input and cache counters alone. -/
theorem processEvent_preserves_of_not_start (st : Meter) (e : Json)
    (hs : isMessageStart e = false) :
    (processEvent st e).input = st.input
    ∧ (processEvent st e).cacheCreation = st.cacheCreation
    ∧ (processEvent st e).cacheRead = st.cacheRead := by
  simp only [isMessageStart] at hs
  simp only [processEvent, hs]
  split_ifs <;> simp_all

/-- A `message_start` event with truthy usage seeds all four counters with
the values it carries. -/
theorem processEvent_start_sets (st : Meter) (e : Json)
    (hs : isMessageStart e = true) (ht : jtruthy (msgStartUsage e) = true) :
    (processEvent st e).input = (msgStartReads e).1
    ∧ (processEvent st e).output = (msgStartReads e).2.1
    ∧ (processEvent st e).cacheCreation = (msgStartReads e).2.2.1
    ∧ (processEvent st e).cacheRead = (msgStartReads e).2.2.2 := by
  simp only [isMessageStart] at hs
  simp only [msgStartUsage] at ht
  simp only [processEvent, hs, ht, msgStartReads, msgStartUsage]
  simp

/-- A `message_delta` event carrying `output_tokens = n` replaces the output
counter with `n` and changes nothing else. -/
theorem processEvent_delta_sets (st : Meter) (e : Json) (n : Int)
    (hd : isDeltaOutput e n = true) :
    (processEvent st e).output = n
    ∧ (processEvent st e).input = st.input
    ∧ (processEvent st e).cacheCreation = st.cacheCreation
    ∧ (processEvent st e).cacheRead = st.cacheRead := by
  simp only [isDeltaOutput, Bool.and_eq_true, beq_iff_eq] at hd
  obtain ⟨⟨⟨hty, htr⟩, hk⟩, hval⟩ := hd
  have hns : isStr (jgetD e "type" Json.null) "message_start" = false :=
    isStr_of_ne _ _ _ hty (by decide)
  simp only [processEvent, hns, hty, htr, hk, hval]
  simp

/-- Folding the meter over events whose every `message_start` carries the same
truthy usage pins the input and cache counters, as soon as either the start
state already carries them or some `message_start` occurs. -/
theorem foldl_fixed_counters (a b c d : Int) (events : List Json) :
    ∀ st : Meter,
      (∀ e ∈ events, isMessageStart e = true →
          jtruthy (msgStartUsage e) = true ∧ msgStartReads e = (a, b, c, d)) →
      ((st.input = a ∧ st.cacheCreation = c ∧ st.cacheRead = d)
        ∨ events.any isMessageStart = true) →
      (events.foldl processEvent st).input = a
        ∧ (events.foldl processEvent st).cacheCreation = c
        ∧ (events.foldl processEvent st).cacheRead = d := by
  induction events with
  | nil =>
    intro st hall hbase
    rcases hbase with h | h
    · simpa using h
    · simp at h
  | cons e es ih =>
    intro st hall hbase
    rw [List.foldl_cons]
    by_cases hs : isMessageStart e = true
    · obtain ⟨htr, hread⟩ := hall e (List.mem_cons_self e es) hs
      apply ih
      · intro x hx hsx
        exact hall x (List.mem_cons_of_mem e hx) hsx
      · left
        obtain ⟨h1, _, h3, h4⟩ := processEvent_start_sets st e hs htr
        rw [hread] at h1 h3 h4
        exact ⟨h1, h3, h4⟩
    · have hs' : isMessageStart e = false := by
        simpa using hs
      obtain ⟨p1, p2, p3⟩ := processEvent_preserves_of_not_start st e hs'
      apply ih
      · intro x hx hsx
        exact hall x (List.mem_cons_of_mem e hx) hsx
      · rcases hbase with ⟨q1, q2, q3⟩ | hany
        · exact Or.inl ⟨by rw [p1, q1], by rw [p2, q2], by rw [p3, q3]⟩
        · right
          simpa [List.any_cons, hs'] using hany

/-- Evaluation of the cost calculator at claim C6's scenario counters for the
haiku model the witness stream names. -/
theorem calcCost_haiku_100_250_0_50 :
    calculateTokenCost "claude-3-5-haiku-20241022" 100 250 0 50 = some (271/250000) := by
  have hm : matchModelPricing "claude-3-5-haiku-20241022"
      = some { input_tokens := .flat 0.80, output_tokens := .flat 4,
               cache_write_tokens := .flat 1, cache_read_tokens := .flat 0.08 } := rfl
  simp only [calculateTokenCost, hm, calculateTieredCost]
  norm_num [roundTo, roundHalfEvenInt]

/-- Claim C6. For a well-formed recorded SSE stream whose `message_start`
events all carry usage `{input: 100, output: 0, cache_creation: 0,
cache_read: 50}` (at least one occurs) and whose final event is a
`message_delta` with `delta.usage.output_tokens = 250`, the meter produces
input 100, output 250 (the delta replaces the counter), cache values 0 and
50, and the ledger row records `tokens_used = 400` with cost equal to the
cost calculator at `(model, 100, 250, 0, 50)` (whenever that call returns,
i.e. does not raise). -/
theorem c6_sse_meter_and_ledger_row (front : List Json) (lastE : Json) (c : ℚ)
    (hwf : ∀ e ∈ front ++ [lastE], eventWellFormed e = true)
    (hstart : (front ++ [lastE]).any isMessageStart = true)
    (hall : ∀ e ∈ front ++ [lastE], isMessageStart e = true →
        jtruthy (msgStartUsage e) = true ∧ msgStartReads e = (100, 0, 0, 50))
    (hdelta : isDeltaOutput lastE 250 = true)
    (hmodel : (parseSSE (front ++ [lastE])).model ≠ "unknown")
    (hcost : calculateTokenCost (parseSSE (front ++ [lastE])).model 100 250 0 50 = some c) :
    (parseSSE (front ++ [lastE])).input = 100
    ∧ (parseSSE (front ++ [lastE])).output = 250
    ∧ (parseSSE (front ++ [lastE])).cacheCreation = 0
    ∧ (parseSSE (front ++ [lastE])).cacheRead = 50
    ∧ recordStatsSSERow (front ++ [lastE])
        = ⟨(parseSSE (front ++ [lastE])).model, 100, 250, 0, 50, 400, c⟩ := by
  have hsplit : parseSSE (front ++ [lastE])
      = processEvent (front.foldl processEvent initMeter) lastE := by
    simp [parseSSE, List.foldl_append]
  have hnsl : isMessageStart lastE = false := by
    simp only [isDeltaOutput, Bool.and_eq_true] at hdelta
    exact isStr_of_ne _ _ _ hdelta.1.1.1 (by decide)
  have hfrontany : front.any isMessageStart = true := by
    rw [List.any_append] at hstart
    simpa [hnsl] using hstart
  have hfront := foldl_fixed_counters 100 0 0 50 front initMeter
    (fun e he hse => hall e (List.mem_append_left _ he) hse) (Or.inr hfrontany)
  obtain ⟨d1, d2, d3, d4⟩ :=
    processEvent_delta_sets (front.foldl processEvent initMeter) lastE 250 hdelta
  have hin : (parseSSE (front ++ [lastE])).input = 100 := by
    rw [hsplit, d2]; exact hfront.1
  have hout : (parseSSE (front ++ [lastE])).output = 250 := by
    rw [hsplit]; exact d1
  have hcc : (parseSSE (front ++ [lastE])).cacheCreation = 0 := by
    rw [hsplit, d3]; exact hfront.2.1
  have hcr : (parseSSE (front ++ [lastE])).cacheRead = 50 := by
    rw [hsplit, d4]; exact hfront.2.2
  refine ⟨hin, hout, hcc, hcr, ?_⟩
  have hmeq : parseSSE (front ++ [lastE])
      = ⟨100, 250, 0, 50, (parseSSE (front ++ [lastE])).model⟩ := by
    cases hp : parseSSE (front ++ [lastE])
    rw [hp] at hin hout hcc hcr
    simp_all
  have hbeq : ((parseSSE (front ++ [lastE])).model == "unknown") = false := by
    simpa [beq_eq_false_iff_ne] using hmodel
  simp only [recordStatsSSERow]
  rw [hmeq]
  simp only [hbeq, Bool.false_eq_true, if_false]
  rw [show (⟨100, 250, 0, 50, (parseSSE (front ++ [lastE])).model⟩ : Meter).model
      = (parseSSE (front ++ [lastE])).model from rfl] at hcost ⊢
  rw [hcost]
  norm_num

/-- Witness for C6 at the two-event stream of the claim's scenario. -/
theorem c6_sse_meter_and_ledger_row_witness :
    (parseSSE ([c6Event1] ++ [c6Event2])).input = 100
    ∧ (parseSSE ([c6Event1] ++ [c6Event2])).output = 250
    ∧ (parseSSE ([c6Event1] ++ [c6Event2])).cacheCreation = 0
    ∧ (parseSSE ([c6Event1] ++ [c6Event2])).cacheRead = 50
    ∧ recordStatsSSERow ([c6Event1] ++ [c6Event2])
        = ⟨(parseSSE ([c6Event1] ++ [c6Event2])).model, 100, 250, 0, 50, 400, 271/250000⟩ :=
  c6_sse_meter_and_ledger_row [c6Event1] c6Event2 (271/250000)
    (by decide) (by decide) (by decide) (by decide) (by decide)
    (by
      rw [show (parseSSE ([c6Event1] ++ [c6Event2])).model = "claude-3-5-haiku-20241022"
          from by decide]
      exact calcCost_haiku_100_250_0_50)

/-- The `any` test is `isSome` of `find?`. -/
theorem any_eq_isSome_find? {α : Type} (p : α → Bool) (l : List α) :
    l.any p = (l.find? p).isSome := by
  induction l with
  | nil => rfl
  | cons x xs ih =>
    cases hp : p x <;>
      simp [List.any_cons, hp, List.find?_cons_of_pos, List.find?_cons_of_neg, ih]

/-- Computing `find?` through `replaceFirst` on the same predicate, when `f` preserves
the predicate. -/
theorem find?_replaceFirst_same {α : Type} (p : α → Bool) (f : α → α) (l : List α)
    (hpf : ∀ x, p (f x) = p x) :
    (replaceFirst p f l).find? p = (l.find? p).map f := by
  induction l with
  | nil => rfl
  | cons x xs ih =>
    cases hx : p x
    · simp [replaceFirst, hx, List.find?_cons_of_neg, ih]
    · have hfx : p (f x) = true := by rw [hpf x, hx]
      simp [replaceFirst, hx, List.find?_cons_of_pos, hfx]

/-- The `find?` result is unchanged by a `replaceFirst` on a disjoint predicate whose
replacement preserves `p`. -/
theorem find?_replaceFirst_disj {α : Type} (p q : α → Bool) (f : α → α) (l : List α)
    (hdis : ∀ x, p x = true → q x = false)
    (hf : ∀ x, p (f x) = p x) :
    (replaceFirst q f l).find? p = l.find? p := by
  induction l with
  | nil => rfl
  | cons x xs ih =>
    cases hq : q x
    · simp only [replaceFirst, hq, Bool.false_eq_true, if_false]
      cases hp : p x
      · simp [List.find?_cons_of_neg, hp, ih]
      · simp [List.find?_cons_of_pos, hp]
    · have hpx : p x = false := by
        cases hp : p x
        · rfl
        · rw [hdis x hp] at hq; cases hq
      have hpfx : p (f x) = false := by rw [hf x, hpx]
      simp [replaceFirst, hq, List.find?_cons_of_neg, hpx, hpfx, ih]

/-- A hit in the left list survives appending. -/
theorem find?_append_some {α : Type} (l1 l2 : List α) (p : α → Bool) (r : α)
    (h : l1.find? p = some r) : (l1 ++ l2).find? p = some r := by
  induction l1 with
  | nil => simp [List.find?] at h
  | cons x xs ih =>
    cases hp : p x
    · rw [List.find?_cons_of_neg _ (by simp [hp])] at h
      simpa [List.find?_cons_of_neg, hp] using ih h
    · rw [List.find?_cons_of_pos _ (by simp [hp])] at h
      simpa [List.find?_cons_of_pos, hp] using h

/-- A miss in the left list defers to the right list. -/
theorem find?_append_none {α : Type} (l1 l2 : List α) (p : α → Bool)
    (h : l1.find? p = none) : (l1 ++ l2).find? p = l2.find? p := by
  induction l1 with
  | nil => rfl
  | cons x xs ih =>
    cases hp : p x
    · rw [List.find?_cons_of_neg _ (by simp [hp])] at h
      simpa [List.find?_cons_of_neg, hp] using ih h
    · rw [List.find?_cons_of_pos _ (by simp [hp])] at h
      cases h

/-- Replacing the first hit by something equal to it is the identity. -/
theorem replaceFirst_fixed {α : Type} (p : α → Bool) (f : α → α) (l : List α) (r : α)
    (hfind : l.find? p = some r) (hr : f r = r) : replaceFirst p f l = l := by
  induction l with
  | nil => simp [List.find?] at hfind
  | cons x xs ih =>
    cases hp : p x
    · rw [List.find?_cons_of_neg _ (by simp [hp])] at hfind
      simp [replaceFirst, hp, ih hfind]
    · rw [List.find?_cons_of_pos _ (by simp [hp])] at hfind
      injection hfind with h2
      subst h2
      simp [replaceFirst, hp, hr]

/-- Applying `replaceFirst` with a first-component-preserving function keeps the key
list. -/
theorem map_fst_replaceFirst {α β : Type} (q : α × β → Bool) (f : α × β → α × β)
    (hf : ∀ g, (f g).1 = g.1) (l : List (α × β)) :
    (replaceFirst q f l).map Prod.fst = l.map Prod.fst := by
  induction l with
  | nil => rfl
  | cons x xs ih =>
    cases hq : q x <;> simp [replaceFirst, hq, hf, ih]

/-- Overwriting preserves the key columns, hence the match predicate. -/
theorem rowMatches_setRowFields (a : String) (d : Int) (m : String) (s : DailySummary)
    (row : DailyUsageRow) :
    rowMatches a d m (setRowFields s row) = rowMatches a d m row := by
  simp [rowMatches, setRowFields]

/-- Overwriting twice with the same summary is overwriting once. -/
theorem setRowFields_idem (s : DailySummary) (r : DailyUsageRow) :
    setRowFields s (setRowFields s r) = setRowFields s r := rfl

/-- Upserting a group leaves its first matching row carrying exactly that
group's summary. -/
theorem upsert_establishes (date : Int) (t : List DailyUsageRow)
    (k : String × String) (s : DailySummary) :
    FirstMatchFixed k date s (upsertGroup date t (k, s)) := by
  unfold upsertGroup FirstMatchFixed
  by_cases ha : t.any (rowMatches k.1 date k.2) = true
  · rw [if_pos ha]
    rw [any_eq_isSome_find?] at ha
    obtain ⟨r0, hr0⟩ := Option.isSome_iff_exists.mp ha
    refine ⟨setRowFields s r0, ?_, setRowFields_idem s r0⟩
    rw [find?_replaceFirst_same _ _ _ (fun x => rowMatches_setRowFields k.1 date k.2 s x), hr0]
    rfl
  · rw [if_neg ha]
    have hnone : t.find? (rowMatches k.1 date k.2) = none := by
      cases hf : t.find? (rowMatches k.1 date k.2)
      · rfl
      · exact absurd (by rw [any_eq_isSome_find?, hf]; rfl) ha
    refine ⟨newDailyRow k date s, ?_, rfl⟩
    rw [find?_append_none _ _ _ hnone]
    have hm : rowMatches k.1 date k.2 (newDailyRow k date s) = true := by
      simp [rowMatches, newDailyRow]
    simp [List.find?_cons_of_pos, hm]

/-- Upserting a group with a different key does not disturb another key's
fixed first match. -/
theorem upsert_preserves (date : Int) (t : List DailyUsageRow)
    (k kp : String × String) (s sp : DailySummary)
    (hkk : ¬(kp.1 = k.1 ∧ kp.2 = k.2)) (h : FirstMatchFixed k date s t) :
    FirstMatchFixed k date s (upsertGroup date t (kp, sp)) := by
  obtain ⟨r, hr, hfix⟩ := h
  unfold upsertGroup
  by_cases ha : t.any (rowMatches kp.1 date kp.2) = true
  · rw [if_pos ha]
    refine ⟨r, ?_, hfix⟩
    rw [find?_replaceFirst_disj (rowMatches k.1 date k.2) (rowMatches kp.1 date kp.2) _ t
        ?_ (fun x => rowMatches_setRowFields k.1 date k.2 sp x)]
    · exact hr
    · intro x hx
      cases hq : rowMatches kp.1 date kp.2 x
      · rfl
      · exfalso
        simp only [rowMatches, Bool.and_eq_true, beq_iff_eq] at hx hq
        exact hkk ⟨by rw [← hq.1.1]; exact hx.1.1, by rw [← hq.2]; exact hx.2⟩
  · rw [if_neg ha]
    exact ⟨r, find?_append_some _ _ _ _ hr, hfix⟩

/-- A fold of upserts over groups with other keys preserves a fixed first
match. -/
theorem foldl_upsert_preserves (date : Int) (k : String × String) (s : DailySummary)
    (gs : List ((String × String) × DailySummary)) :
    ∀ t : List DailyUsageRow,
      (∀ g ∈ gs, ¬(g.1.1 = k.1 ∧ g.1.2 = k.2)) →
      FirstMatchFixed k date s t →
      FirstMatchFixed k date s (gs.foldl (upsertGroup date) t) := by
  induction gs with
  | nil => intro t _ h; exact h
  | cons g gs ih =>
    intro t hd h
    rw [List.foldl_cons]
    apply ih
    · intro gp hgp
      exact hd gp (List.mem_cons_of_mem _ hgp)
    · exact upsert_preserves date t k g.1 s g.2 (hd g (List.mem_cons_self _ _)) h

/-- Once every group's first match is fixed, the whole upsert pass is the
identity. -/
theorem foldl_upsert_noop (date : Int) (gs : List ((String × String) × DailySummary)) :
    ∀ t : List DailyUsageRow,
      (∀ g ∈ gs, FirstMatchFixed g.1 date g.2 t) →
      gs.foldl (upsertGroup date) t = t := by
  induction gs with
  | nil => intro t _; rfl
  | cons g gs ih =>
    intro t h
    rw [List.foldl_cons]
    obtain ⟨r, hr, hfix⟩ := h g (List.mem_cons_self _ _)
    have hup : upsertGroup date t g = t := by
      unfold upsertGroup
      have hany : t.any (rowMatches g.1.1 date g.1.2) = true := by
        rw [any_eq_isSome_find?, hr]
        rfl
      rw [if_pos hany]
      exact replaceFirst_fixed _ _ _ _ hr hfix
    rw [hup]
    exact ih t (fun gp hgp => h gp (List.mem_cons_of_mem _ hgp))

/-- After one aggregation pass, every group's first match is fixed (keys are
pairwise distinct). -/
theorem foldl_upsert_establishes (date : Int)
    (gs : List ((String × String) × DailySummary)) :
    ∀ t : List DailyUsageRow, NodupKeys gs →
      ∀ g ∈ gs, FirstMatchFixed g.1 date g.2 (gs.foldl (upsertGroup date) t) := by
  induction gs with
  | nil =>
    intro t _ g hg
    cases hg
  | cons g0 gs ih =>
    intro t hnd g hg
    simp only [NodupKeys, List.pairwise_cons] at hnd
    rw [List.foldl_cons]
    rcases List.mem_cons.mp hg with rfl | hmem
    · apply foldl_upsert_preserves
      · intro gp hgp
        intro hc
        exact hnd.1 gp hgp ⟨hc.1.symm, hc.2.symm⟩
      · have h0 := upsert_establishes date t g.1 g.2
        simpa using h0
    · exact ih (upsertGroup date t g0) hnd.2 g hmem

/-- Reading `NodupKeys` through the key list. -/
theorem nodupKeys_iff (gs : List ((String × String) × DailySummary)) :
    NodupKeys gs
      ↔ (gs.map Prod.fst).Pairwise (fun a b => ¬(a.1 = b.1 ∧ a.2 = b.2)) := by
  simp [NodupKeys, List.pairwise_map]

/-- One grouping step keeps the keys pairwise distinct. -/
theorem addToGroups_nodup (acc : List ((String × String) × DailySummary)) (r : UsageRecord)
    (h : NodupKeys acc) : NodupKeys (addToGroups acc r) := by
  unfold addToGroups
  by_cases ha : acc.any (keyMatches r.api_key_id r.model) = true
  · rw [if_pos ha]
    rw [nodupKeys_iff] at h ⊢
    rw [map_fst_replaceFirst (keyMatches r.api_key_id r.model)
        (fun g => (g.1, updateSummary g.2 r)) (fun g => rfl) acc]
    exact h
  · rw [if_neg ha]
    rw [nodupKeys_iff] at h ⊢
    rw [List.map_append, List.pairwise_append]
    refine ⟨h, List.pairwise_singleton _ _, ?_⟩
    intro a hak b hb
    simp only [List.map_cons, List.map_nil, List.mem_singleton] at hb
    subst hb
    obtain ⟨g, hg, rfl⟩ := List.mem_map.mp hak
    intro hc
    have hfalse : keyMatches r.api_key_id r.model g = false := by
      cases hm : keyMatches r.api_key_id r.model g
      · rfl
      · exact absurd (List.any_eq_true.mpr ⟨g, hg, hm⟩) ha
    simp only [keyMatches, Bool.and_eq_true, beq_iff_eq] at hfalse
    rw [hc.1, hc.2] at hfalse
    simp at hfalse

/-- Grouping a ledger always yields pairwise-distinct keys. -/
theorem foldl_addToGroups_nodup (rs : List UsageRecord) :
    ∀ acc, NodupKeys acc → NodupKeys (rs.foldl addToGroups acc) := by
  induction rs with
  | nil => intro acc h; exact h
  | cons r rs ih =>
    intro acc h
    rw [List.foldl_cons]
    exact ih _ (addToGroups_nodup acc r h)

/-- The keys of `usage_summary` are pairwise distinct. -/
theorem groupLedger_nodup (ledger : List UsageRecord) (date : Int) :
    NodupKeys (groupLedger ledger date) := by
  unfold groupLedger
  exact foldl_addToGroups_nodup _ [] List.Pairwise.nil

/-- Claim C9. Aggregating the same ledger for the same date twice leaves the
daily table exactly as after one aggregation: the second pass finds each
`(api_key_id, date, model)` row already carrying the recomputed totals and
overwrites it with the same values. -/
theorem c9_aggregate_daily_usage_idempotent (ledger : List UsageRecord)
    (table : List DailyUsageRow) (date : Int) :
    aggregateDailyUsage ledger (aggregateDailyUsage ledger table date) date
      = aggregateDailyUsage ledger table date := by
  unfold aggregateDailyUsage
  apply foldl_upsert_noop
  intro g hg
  exact foldl_upsert_establishes date (groupLedger ledger date) table
    (groupLedger_nodup ledger date) g hg
